import Mathlib

/-!
Verification of the proactor core of the nuclei asynchronous runtime
(`src/proactor.rs`): the process-wide `Proactor` singleton (`get`,
`with_config`, `wake`, `wait`, `backend`) and the `drive` combinator.

The Rust code is shallowly embedded as pure Lean functions.  The global
`PROACTOR: OnceCell<Proactor>` is threaded explicitly as a `ProcState`;
Rust panics (from `expect`/`unwrap`) are embedded as `Except.error` carrying
the panic message.  The backend (`SysProactor`, external to the core) is
abstracted by a `BackendEnv` oracle saying which constructions, wakes and
waits succeed.
-/

deriving instance DecidableEq for Except

namespace Nuclei

/-- Modelled from the spec: `crate::config::IoUringConfiguration` is not under
`src/`; the spec describes the configuration surface as queue capacity, a
sqpoll wake interval and per-NUMA worker counts, with a default queue length
of 2048. -/
structure IoUringConfiguration where
  queue_len : Nat
  sqpoll_wake_interval : Option Nat
  per_numa_bounded_worker_count : Option Nat
  per_numa_unbounded_worker_count : Option Nat
deriving DecidableEq

/-- Modelled from the spec: the default configuration (queue capacity 2048). -/
def IoUringConfiguration.default : IoUringConfiguration :=
  { queue_len := 2048
    sqpoll_wake_interval := none
    per_numa_bounded_worker_count := none
    per_numa_unbounded_worker_count := none }

/-- Modelled from the spec: `crate::config::NucleiConfig`, a value object
wrapping the io_uring configuration. -/
structure NucleiConfig where
  iouring : IoUringConfiguration
deriving DecidableEq

/-- Modelled from the spec: `NucleiConfig::default()`. -/
def NucleiConfig.default : NucleiConfig :=
  { iouring := IoUringConfiguration.default }

/-- Modelled from the spec: the backend instance (`SysProactor`) is an external
collaborator; observably it is determined by the configuration it was built
from (the tests read back `sq.capacity()`), so we model it as recording that
configuration. -/
structure SysProactor where
  config : NucleiConfig
deriving DecidableEq

/-- Modelled from the spec: the behaviour of the external backend, as an
oracle: which configurations `SysProactor::new` accepts, and the result of the
k-th `wake` and the k-th `wait` call (errors are opaque `Nat` codes). -/
structure BackendEnv where
  createOk : NucleiConfig → Bool
  wakeResult : Nat → Except Nat Unit
  waitResult : Nat → Nat → Option Nat → Except Nat Nat

/-- Modelled from the spec: `SysProactor::new(config) -> Result<SysProactor>`. -/
def SysProactor.new (env : BackendEnv) (config : NucleiConfig) :
    Except Nat SysProactor :=
  if env.createOk config then .ok { config := config } else .error 0

/-- `Proactor(pub(crate) SysProactor)`, tagged with a construction identity so
that "same instance" (identity, not merely equal configuration) is
expressible: distinct constructions get distinct `id`s. -/
structure Proactor where
  id : Nat
  inner : SysProactor
deriving DecidableEq

/-- The process-wide state: the `static PROACTOR: OnceCell<Proactor>` cell,
plus a counter supplying fresh identity tags for constructed instances. -/
structure ProcState where
  cell : Option Proactor
  nextId : Nat
deriving DecidableEq

/-- The state of the process before any initialization call. -/
def ProcState.empty : ProcState :=
  { cell := none, nextId := 0 }

/-- Panic message of `SysProactor::new(..).expect(..)` in `get`/`with_config`. -/
def initFailMsg : String :=
  "cannot initialize IO backend"

/-- Panic message of `PROACTOR.set(..).map_err(..).unwrap()` in `with_config`. -/
def setFailMsg : String :=
  "Proactor instance not being able to set."

/-- Panic message of `self.0.wake().expect(..)` in `Proactor::wake`. -/
def wakeFailMsg : String :=
  "failed to wake thread"

/-- `Proactor::get()`: `PROACTOR.get_or_init(|| Proactor(SysProactor::new(
NucleiConfig::default()).expect("cannot initialize IO backend")))`.  Returns
the installed instance if the cell is full; otherwise constructs a backend
from the default configuration (panicking if construction fails, in which
case the cell stays empty) and installs it. -/
def Proactor.get (env : BackendEnv) (st : ProcState) :
    Except String Proactor × ProcState :=
  match st.cell with
  | some p => (.ok p, st)
  | none =>
    match SysProactor.new env NucleiConfig.default with
    | .ok b =>
      let p : Proactor := { id := st.nextId, inner := b }
      (.ok p, { cell := some p, nextId := st.nextId + 1 })
    | .error _ => (.error initFailMsg, st)

/-- `Proactor::with_config(config)`: constructs
`Proactor(SysProactor::new(config.clone()).expect("cannot initialize IO
backend"))`, then `PROACTOR.set(proactor).map_err(..).unwrap()` — which
panics when the cell is already full — and finally returns `PROACTOR.wait()`.
Panics leave the cell as it was. -/
def Proactor.with_config (env : BackendEnv) (config : NucleiConfig)
    (st : ProcState) : Except String Proactor × ProcState :=
  match SysProactor.new env config with
  | .error _ => (.error initFailMsg, st)
  | .ok b =>
    match st.cell with
    | some _ => (.error setFailMsg, st)
    | none =>
      let p : Proactor := { id := st.nextId, inner := b }
      (.ok p, { cell := some p, nextId := st.nextId + 1 })

/-- `Proactor::wake(&self)`: `self.0.wake().expect("failed to wake thread")`.
`k` indexes which backend wake call this is. -/
def Proactor.wake (env : BackendEnv) (k : Nat) : Except String Unit :=
  match env.wakeResult k with
  | .ok _ => .ok ()
  | .error _ => .error wakeFailMsg

/-- `Proactor::wait(&self, max_event_size, duration)`: forwards to
`self.0.wait(max_event_size, duration)`.  `k` indexes which backend wait call
this is. -/
def Proactor.wait (env : BackendEnv) (k : Nat) (max_event_size : Nat)
    (duration : Option Nat) : Except Nat Nat :=
  env.waitResult k max_event_size duration

/-- `std::task::Poll`. -/
inductive Poll (α : Type) where
  | ready : α → Poll α
  | pending : Poll α
deriving DecidableEq

/-- The state of the background worker spawned by `drive`: how many `wait`
calls it has made, and whether it has been stopped (joined/cancelled). -/
structure WorkerState where
  waits : Nat
  stopped : Bool
deriving DecidableEq

/-- A call made on the backend, recorded for the trace: the call index and,
for waits, the `max_event_size` and `duration` arguments. -/
inductive BCall where
  | waitCall : Nat → Nat → Option Nat → BCall
  | wakeCall : Nat → BCall
deriving DecidableEq

/-- One iteration of the background worker's loop body, from `drive`:
`loop { let _ = p.wait(1, None); }` — performs `wait(1, None)`, discards the
result (both on success and on error), and continues.  Also reports the call
it made. -/
def workerStep (env : BackendEnv) (ws : WorkerState) : WorkerState × BCall :=
  match Proactor.wait env ws.waits 1 none with
  | .ok _ => ({ ws with waits := ws.waits + 1 }, .waitCall ws.waits 1 none)
  | .error _ => ({ ws with waits := ws.waits + 1 }, .waitCall ws.waits 1 none)

/-- `n` iterations of the background worker's loop, with the trace of the
backend calls it made. -/
def workerRun (env : BackendEnv) : Nat → WorkerState → WorkerState × List BCall
  | 0, ws => (ws, [])
  | n + 1, ws =>
    let (ws1, c) := workerStep env ws
    let (ws2, cs) := workerRun env n ws1
    (ws2, c :: cs)

/-- Modelled from the spec: `crate::spawn_blocking` and its task handle are
not under `src/`.  Per the spec, the background worker loop "is only stopped
by the foreground returning (dropping/joining it)"; dropping the `driver`
handle when `drive` returns therefore stops the worker. -/
def dropDriver (ws : WorkerState) : WorkerState :=
  { ws with stopped := true }

/-- The per-invocation state of `drive`'s foreground loop: the driven
computation's state, the number of wake-callback invocations so far, and the
background worker's state. -/
structure DriveState (σ : Type) where
  comp : σ
  wakes : Nat
  worker : WorkerState
deriving DecidableEq

/-- The drive-session state at the start of `drive`: the computation at its
initial state, no wakes yet, and a freshly launched worker. -/
def initDrive {σ : Type} (c0 : σ) : DriveState σ :=
  { comp := c0, wakes := 0, worker := { waits := 0, stopped := false } }

/-- One iteration of `drive`'s foreground loop (src lines 96‑104): poll the
computation; if it is ready, return its value (`Sum.inl`); otherwise invoke
the wake callback — `cx.waker().wake_by_ref()`, i.e. the `waker_fn` closure
calling `p.wake()`, which panics on a failed wake — then poll the `driver`
handle once, which (modelled from the spec) advances the background worker by
one step, and continue (`Sum.inr`). -/
def driveIter {σ α : Type} (env : BackendEnv) (fut : σ → σ × Poll α)
    (s : DriveState σ) : Except String (α ⊕ DriveState σ) :=
  match fut s.comp with
  | (_, .ready v) => .ok (.inl v)
  | (c1, .pending) =>
    match Proactor.wake env s.wakes with
    | .error m => .error m
    | .ok _ =>
      .ok (.inr { comp := c1, wakes := s.wakes + 1
                  worker := (workerStep env s.worker).1 })

/-- `drive`'s foreground loop, run for at most `fuel` iterations.  Returns
`some` of the computation's value and the worker's state at return — the
worker is dropped/stopped on the way out — when the computation became ready
within the fuel; `none` when the fuel ran out with the loop still running;
`Except.error` when an iteration panicked. -/
def driveLoop {σ α : Type} (env : BackendEnv) (fut : σ → σ × Poll α) :
    Nat → DriveState σ → Except String (Option (α × WorkerState))
  | 0, _ => .ok none
  | fuel + 1, s =>
    match driveIter env fut s with
    | .error m => .error m
    | .ok (.inl v) => .ok (some (v, dropDriver s.worker))
    | .ok (.inr s1) => driveLoop env fut fuel s1

/-- `drive(future)`: obtains the process-wide proactor via `Proactor::get()`
(possibly initializing it, possibly panicking), then runs the foreground
loop.  The computation is given as a state-machine `fut` with initial state
`c0`; `fuel` bounds the number of foreground iterations modelled. -/
def drive {σ α : Type} (env : BackendEnv) (fut : σ → σ × Poll α) (c0 : σ)
    (fuel : Nat) (st : ProcState) :
    Except String (Option (α × WorkerState)) × ProcState :=
  match Proactor.get env st with
  | (.error m, st1) => (.error m, st1)
  | (.ok _, st1) => (driveLoop env fut fuel (initDrive c0), st1)

/-- The sequence of computation states reached by repeatedly polling: the
state after `k` polls. -/
def pollStates {σ α : Type} (fut : σ → σ × Poll α) (c0 : σ) : Nat → σ
  | 0 => c0
  | k + 1 => (fut (pollStates fut c0 k)).1

/-- A computation that returns `Poll::Pending` for its first `n` polls (where
`n` is its current state) and then `Poll::Ready v`, performing no I/O. -/
def countdown {α : Type} (v : α) : Nat → Nat × Poll α
  | 0 => (0, .ready v)
  | n + 1 => (n, .pending)

/-- `crate::sys::IoBackend`: the enumerated kernel mechanism. -/
inductive IoBackend where
  | iouring
  | epoll
  | kqueue
deriving DecidableEq

/-- `Proactor::backend()`: `{ BACKEND }` — returns the compile-time constant
`BACKEND` (passed here as the parameter `be`) and touches nothing else; in
particular it takes the process state and hands it back unchanged. -/
def Proactor.backend (be : IoBackend) (st : ProcState) : IoBackend × ProcState :=
  (be, st)

/-! Concrete backend environments, configurations and states used by the
witnesses and counterexamples. -/

/-- A backend environment in which every backend operation succeeds. -/
def envAllOk : BackendEnv :=
  { createOk := fun _ => true
    wakeResult := fun _ => .ok ()
    waitResult := fun _ _ _ => .ok 0 }

/-- A backend environment in which backend construction always fails. -/
def envCreateFails : BackendEnv :=
  { createOk := fun _ => false
    wakeResult := fun _ => .ok ()
    waitResult := fun _ _ _ => .ok 0 }

/-- A backend environment in which every wake call fails. -/
def envWakeFails : BackendEnv :=
  { createOk := fun _ => true
    wakeResult := fun _ => .error 0
    waitResult := fun _ _ _ => .ok 0 }

/-- The explicit configuration used by the repository's
`proactor_with_config_rollup` test: queue length 10, wake interval 11,
worker counts 12 and 13. -/
def sampleConfig : NucleiConfig :=
  { iouring :=
    { queue_len := 10
      sqpoll_wake_interval := some 11
      per_numa_bounded_worker_count := some 12
      per_numa_unbounded_worker_count := some 13 } }

/-- The instance installed by a first `get()` under `envAllOk`. -/
def instP : Proactor :=
  { id := 0, inner := { config := NucleiConfig.default } }

/-- The process state after a first successful `get()` under `envAllOk`. -/
def installedState : ProcState :=
  { cell := some instP, nextId := 1 }

/-! ### C6: singleton uniqueness of `get` -/

/-- C6: any two consecutive calls to `get()` return the same process-wide
instance (identity: same `id` tag, not merely equal configuration) and leave
the state unchanged, with the instance constructed from the default
configuration on the first call. -/
theorem get_singleton (env : BackendEnv) (st st1 : ProcState) (p : Proactor)
    (h : Proactor.get env st = (.ok p, st1)) :
    Proactor.get env st1 = (.ok p, st1) ∧
    (st.cell = none → p.inner.config = NucleiConfig.default) := by
  cases hc : st.cell with
  | some q =>
    simp [Proactor.get, hc] at h
    obtain ⟨hp, hst⟩ := h
    subst hp
    subst hst
    refine ⟨by simp [Proactor.get, hc], ?_⟩
    intro hnone
    simp [hc] at hnone
  | none =>
    rw [Proactor.get, hc] at h
    cases hn : SysProactor.new env NucleiConfig.default with
    | ok b =>
      rw [hn] at h
      simp only [Prod.mk.injEq, Except.ok.injEq] at h
      obtain ⟨hp, hst⟩ := h
      subst hp
      refine ⟨?_, ?_⟩
      · rw [Proactor.get, ← hst]
      · intro _
        rw [SysProactor.new] at hn
        by_cases hcr : env.createOk NucleiConfig.default
        · simp [hcr] at hn
          rw [← hn]
        · simp [hcr] at hn
    | error e =>
      rw [hn] at h
      cases h

/-- Witness for C6 at a concrete input: `get` under `envAllOk` from the empty
state installs `instP`, and the theorem yields that a second `get` returns
the same instance, built from the default configuration. -/
theorem get_singleton_witness :
    Proactor.get envAllOk installedState = (.ok instP, installedState) ∧
    (ProcState.empty.cell = none → instP.inner.config = NucleiConfig.default) :=
  get_singleton envAllOk ProcState.empty installedState instP (by decide)

/-! ### C7: explicit-first wins -/

/-- C7: when `with_config(cfg)` is the very first initialization call and it
succeeds, the installed instance carries `cfg`, and every subsequent `get()`
(from any state still holding that instance) returns that same instance
unchanged. -/
theorem with_config_first_wins (env : BackendEnv) (cfg : NucleiConfig)
    (p : Proactor) (st1 : ProcState)
    (h : Proactor.with_config env cfg ProcState.empty = (.ok p, st1)) :
    p.inner.config = cfg ∧ st1.cell = some p ∧
    ∀ st2 : ProcState, st2.cell = some p → Proactor.get env st2 = (.ok p, st2) := by
  rw [Proactor.with_config] at h
  cases hn : SysProactor.new env cfg with
  | ok b =>
    rw [hn] at h
    simp only [ProcState.empty, Prod.mk.injEq, Except.ok.injEq] at h
    obtain ⟨hp, hst⟩ := h
    subst hp
    refine ⟨?_, ?_, ?_⟩
    · rw [SysProactor.new] at hn
      by_cases hcr : env.createOk cfg
      · simp [hcr] at hn
        rw [← hn]
      · simp [hcr] at hn
    · rw [← hst]
    · intro st2 h2
      simp [Proactor.get, h2]
  | error e =>
    rw [hn] at h
    cases h

/-- Witness for C7 at a concrete input: a first `with_config(sampleConfig)`
under `envAllOk` installs an instance carrying `sampleConfig`, which `get`
then returns unchanged. -/
theorem with_config_first_wins_witness :
    ({ id := 0, inner := { config := sampleConfig } } : Proactor).inner.config
        = sampleConfig ∧
    ({ cell := some { id := 0, inner := { config := sampleConfig } }
       nextId := 1 } : ProcState).cell
        = some { id := 0, inner := { config := sampleConfig } } ∧
    ∀ st2 : ProcState,
      st2.cell = some { id := 0, inner := { config := sampleConfig } } →
      Proactor.get envAllOk st2 =
        (.ok { id := 0, inner := { config := sampleConfig } }, st2) :=
  with_config_first_wins envAllOk sampleConfig
    { id := 0, inner := { config := sampleConfig } }
    { cell := some { id := 0, inner := { config := sampleConfig } }, nextId := 1 }
    (by decide)

/-! ### C9: initialization failure is fatal on the implicit path -/

/-- C9: when backend construction with the default configuration fails on the
first `get()`, `get` panics (`initFailMsg`) without producing any Proactor
value, and the cell stays uninitialized. -/
theorem get_init_failure_fatal (env : BackendEnv) (st : ProcState)
    (hfail : env.createOk NucleiConfig.default = false)
    (hempty : st.cell = none) :
    Proactor.get env st = (.error initFailMsg, st) := by
  rw [Proactor.get, hempty, SysProactor.new, hfail]
  simp

/-- Witness for C9 at a concrete input: under `envCreateFails`, the first
`get()` from the empty state panics. -/
theorem get_init_failure_fatal_witness :
    Proactor.get envCreateFails ProcState.empty =
      (.error initFailMsg, ProcState.empty) :=
  get_init_failure_fatal envCreateFails ProcState.empty (by decide) (by decide)

/-! ### C10: `backend()` is pure -/

/-- C10: `Proactor::backend()` returns the compile-time constant `BACKEND`
(`be`) and leaves the process state — even a completely uninitialized one —
untouched: it never constructs or modifies the process-wide instance, and
every call returns the same value. -/
theorem backend_pure (be : IoBackend) (st st2 : ProcState) :
    Proactor.backend be st = (be, st) ∧
    (Proactor.backend be st).1 = (Proactor.backend be st2).1 :=
  ⟨rfl, rfl⟩

/-! ### C1: `with_config` after an instance is installed -/

/-- Counterexample to C1: with every backend operation succeeding and the
default instance already installed, `with_config(sampleConfig)` does not
return a reference to the already-installed instance — it panics with the
`OnceCell::set` unwrap message. -/
theorem with_config_installed_cex :
    (Proactor.with_config envAllOk sampleConfig installedState).1 =
      .error setFailMsg := by
  decide

/-- C1 (amended): if an instance is already installed, `with_config(cfg)`
does construct a new backend from `cfg` to validate it (hypothesis `hok`) and
does not replace or reconfigure the installed instance (the state is
returned unchanged), but it then panics with `setFailMsg` instead of
returning a reference to the already-installed instance. -/
theorem with_config_after_install (env : BackendEnv) (cfg : NucleiConfig)
    (st : ProcState) (p : Proactor) (hst : st.cell = some p)
    (hok : env.createOk cfg = true) :
    Proactor.with_config env cfg st = (.error setFailMsg, st) := by
  rw [Proactor.with_config, SysProactor.new, hok]
  simp [hst]

/-- Witness for C1's amended theorem at a concrete input. -/
theorem with_config_after_install_witness :
    Proactor.with_config envAllOk sampleConfig installedState =
      (.error setFailMsg, installedState) :=
  with_config_after_install envAllOk sampleConfig installedState instP
    (by decide) (by decide)

/-! ### C2: `with_config` when backend construction fails -/

/-- Counterexample to C2: with an already-installed instance, a
`with_config` whose backend construction fails is not ignorable — the
`expect` panic escapes `with_config` (though the installed state survives). -/
theorem with_config_create_failure_cex :
    Proactor.with_config envCreateFails sampleConfig installedState =
      (.error initFailMsg, installedState) := by
  decide

/-- C2 (amended): when backend construction from `cfg` fails, `with_config`
panics with `initFailMsg` — the initialization error is fatal at the
`with_config` call site exactly as at the `get` call site — although the
process-wide state, including any already-installed instance, is left
unchanged. -/
theorem with_config_create_failure (env : BackendEnv) (cfg : NucleiConfig)
    (st : ProcState) (hfail : env.createOk cfg = false) :
    Proactor.with_config env cfg st = (.error initFailMsg, st) := by
  rw [Proactor.with_config, SysProactor.new, hfail]
  simp

/-- Witness for C2's amended theorem at a concrete input. -/
theorem with_config_create_failure_witness :
    Proactor.with_config envCreateFails sampleConfig installedState =
      (.error initFailMsg, installedState) :=
  with_config_create_failure envCreateFails sampleConfig installedState
    (by decide)

/-- A backend environment in which every wait call fails (wakes succeed). -/
def envWaitFails : BackendEnv :=
  { createOk := fun _ => true
    wakeResult := fun _ => .ok ()
    waitResult := fun _ _ _ => .error 5 }

/-- The worker loop body always advances by exactly one `wait(1, None)` call,
whatever that wait returned. -/
theorem workerStep_eq (env : BackendEnv) (ws : WorkerState) :
    workerStep env ws =
      ({ ws with waits := ws.waits + 1 }, .waitCall ws.waits 1 none) := by
  rw [workerStep]
  cases Proactor.wait env ws.waits 1 none <;> rfl

/-! ### C5: the background worker loop -/

/-- C5: over any `n` iterations, the background worker makes exactly one
backend call per iteration, every such call is `wait(1, None)` — one event at
a time, no timeout, call indices consecutive — the loop body never stops the
worker (it is unbounded, with no exit condition), and the run is completely
independent of the backend's wait results: an erroring wait is swallowed and
the loop continues with the next wait call. -/
theorem worker_loop_spec (env env2 : BackendEnv) (n : Nat) (ws : WorkerState) :
    (workerRun env n ws).1.waits = ws.waits + n ∧
    (workerRun env n ws).1.stopped = ws.stopped ∧
    (workerRun env n ws).2 =
      (List.range n).map (fun k => BCall.waitCall (ws.waits + k) 1 none) ∧
    workerRun env n ws = workerRun env2 n ws := by
  induction n generalizing ws with
  | zero => simp [workerRun]
  | succ n ih =>
    obtain ⟨i1, i2, i3, i4⟩ := ih { ws with waits := ws.waits + 1 }
    refine ⟨?_, ?_, ?_, ?_⟩
    · simp [workerRun, workerStep_eq, i1]
      omega
    · simp [workerRun, workerStep_eq, i2]
    · simp only [workerRun, workerStep_eq, i3, List.range_succ_eq_map,
        List.map_cons, List.map_map, List.cons.injEq]
      refine ⟨by simp, ?_⟩
      apply List.map_congr_left
      intro k _
      have ha : ws.waits + 1 + k = ws.waits + Nat.succ k := by omega
      simp [Function.comp, ha]
    · simp [workerRun, workerStep_eq env, workerStep_eq env2, i4]

/-! ### C4: structure of a foreground iteration of `drive` -/

/-- C4: one iteration of `drive`'s foreground loop polls the computation;
the iteration returns a value exactly when that poll is ready (readiness is
the sole way the loop terminates with a value), and when the poll is pending
the iteration invokes the wake callback unconditionally — it consults no
backend event, only the wake call's own result — and, when the wake returns,
advances the background worker by exactly one poll step before the loop
polls the computation again on the advanced state. -/
theorem drive_iteration {σ α : Type} (env : BackendEnv)
    (fut : σ → σ × Poll α) (s : DriveState σ) (v : α) :
    (driveIter env fut s = .ok (.inl v) ↔ (fut s.comp).2 = .ready v) ∧
    ((fut s.comp).2 = .pending → env.wakeResult s.wakes = .ok () →
      driveIter env fut s =
        .ok (.inr { comp := (fut s.comp).1, wakes := s.wakes + 1
                    worker := { s.worker with waits := s.worker.waits + 1 } })) := by
  cases hf : fut s.comp with
  | mk c1 r =>
    cases r with
    | ready w => simp [driveIter, hf]
    | pending =>
      cases hw : env.wakeResult s.wakes with
      | ok u =>
        cases u
        simp [driveIter, hf, Proactor.wake, hw, workerStep_eq]
      | error e =>
        simp [driveIter, hf, Proactor.wake, hw]

/-- Witness for C4 at a concrete input: one pending iteration on a countdown
computation advances the computation, the wake counter and the worker by one
step each. -/
theorem drive_iteration_witness :
    driveIter envAllOk (countdown (7 : Nat)) (initDrive 1) =
      .ok (.inr { comp := 0, wakes := 1
                  worker := { waits := 1, stopped := false } }) :=
  (drive_iteration envAllOk (countdown 7) (initDrive 1) 7).2
    (by decide) (by decide)

/-! ### C3: backend failures and the driven computation's outcome -/

/-- C3 (amended): `drive`'s loop never turns a backend **wait** failure into
a failure of the driven computation — the loop's outcome is completely
independent of the backend's wait results, which the background worker
swallows — and when every wake call succeeds the loop never panics: it
returns only the computation's own outcome (or runs out of fuel).  A failed
**wake** inside the loop, by contrast, panics (see the counterexample). -/
theorem drive_wait_failures_swallowed {σ α : Type} (env env2 : BackendEnv)
    (fut : σ → σ × Poll α) (fuel : Nat) (s : DriveState σ)
    (hwake : env.wakeResult = env2.wakeResult) :
    driveLoop env fut fuel s = driveLoop env2 fut fuel s ∧
    ((∀ k, env.wakeResult k = .ok ()) →
      ∃ r, driveLoop env fut fuel s = .ok r) := by
  induction fuel generalizing s with
  | zero => exact ⟨rfl, fun _ => ⟨none, rfl⟩⟩
  | succ fuel ih =>
    cases hf : fut s.comp with
    | mk c1 r =>
      cases r with
      | ready w =>
        refine ⟨?_, fun _ => ⟨some (w, dropDriver s.worker), ?_⟩⟩ <;>
          simp [driveLoop, driveIter, hf]
      | pending =>
        cases hw : env.wakeResult s.wakes with
        | ok u =>
          cases u
          have hw2 : env2.wakeResult s.wakes = .ok () := by rw [← hwake, hw]
          obtain ⟨j1, j2⟩ := ih
            { comp := c1, wakes := s.wakes + 1
              worker := { s.worker with waits := s.worker.waits + 1 } }
          constructor
          · simp [driveLoop, driveIter, hf, Proactor.wake, hw, hw2,
              workerStep_eq, j1]
          · intro hall
            obtain ⟨r0, hr0⟩ := j2 hall
            refine ⟨r0, ?_⟩
            simpa [driveLoop, driveIter, hf, Proactor.wake, hw,
              workerStep_eq] using hr0
        | error e =>
          have hw2 : env2.wakeResult s.wakes = .error e := by rw [← hwake, hw]
          constructor
          · simp [driveLoop, driveIter, hf, Proactor.wake, hw, hw2]
          · intro hall
            exact absurd (hall s.wakes) (by simp [hw])

/-- Witness for C3's amended theorem at a concrete input: an all-failing-wait
backend produces exactly the same drive outcome as an all-succeeding one, and
with succeeding wakes the loop returns a value. -/
theorem drive_wait_failures_swallowed_witness :
    (driveLoop envAllOk (countdown (9 : Nat)) 5 (initDrive 2) =
      driveLoop envWaitFails (countdown 9) 5 (initDrive 2)) ∧
    ∃ r, driveLoop envAllOk (countdown (9 : Nat)) 5 (initDrive 2) = .ok r :=
  ⟨(drive_wait_failures_swallowed envAllOk envWaitFails (countdown 9) 5
      (initDrive 2) rfl).1,
   (drive_wait_failures_swallowed envAllOk envWaitFails (countdown 9) 5
      (initDrive 2) rfl).2 (fun _ => rfl)⟩

/-- Counterexample to C3: a failed wake occurring during the drive session is
turned into a panic of `drive` — `drive` does not return the computation's
own outcome (`42` after one more poll), it propagates `Proactor::wake`'s
`expect` panic. -/
theorem drive_wake_failure_cex :
    drive envWakeFails (countdown (42 : Nat)) 1 5 ProcState.empty =
      (.error wakeFailMsg, installedState) := by
  decide

/-! ### C8: drive termination and worker shutdown -/

/-- Polling from the successor state is polling one step further. -/
theorem pollStates_shift {σ α : Type} (fut : σ → σ × Poll α) (c : σ) :
    ∀ k, pollStates fut (fut c).1 k = pollStates fut c (k + 1)
  | 0 => rfl
  | k + 1 => by
    rw [pollStates, pollStates_shift fut c k]
    rfl

/-- The foreground loop on a computation that is pending for its first `N`
polls and then ready: with all wakes succeeding, fuel `N + 1 + m` returns the
value, the worker having made `N` wait calls and being stopped on return. -/
theorem driveLoop_ready_after (env : BackendEnv) {σ α : Type}
    (fut : σ → σ × Poll α) (v : α)
    (hw : ∀ k, env.wakeResult k = .ok ()) :
    ∀ (N m : Nat) (c : σ) (wk w : Nat),
    (∀ k < N, (fut (pollStates fut c k)).2 = .pending) →
    (fut (pollStates fut c N)).2 = .ready v →
    driveLoop env fut (N + 1 + m)
        { comp := c, wakes := wk, worker := { waits := w, stopped := false } } =
      .ok (some (v, { waits := w + N, stopped := true })) := by
  intro N
  induction N with
  | zero =>
    intro m c wk w _ hready
    have hm : 0 + 1 + m = m + 1 := by omega
    rw [hm, driveLoop]
    cases hf : fut c with
    | mk c1 r =>
      rw [pollStates, hf] at hready
      simp at hready
      subst hready
      simp [driveIter, hf, dropDriver]
  | succ N ih =>
    intro m c wk w hpend hready
    have hm : N + 1 + 1 + m = (N + 1 + m) + 1 := by omega
    rw [hm, driveLoop]
    cases hf : fut c with
    | mk c1 r =>
      have hp0 : (fut (pollStates fut c 0)).2 = .pending :=
        hpend 0 (Nat.succ_pos N)
      rw [pollStates, hf] at hp0
      simp at hp0
      subst hp0
      have hc1 : c1 = (fut c).1 := by rw [hf]
      have hrec := ih m c1 (wk + 1) (w + 1)
        (fun k hk => by
          rw [hc1, pollStates_shift]
          exact hpend (k + 1) (by omega))
        (by rw [hc1, pollStates_shift]; exact hready)
      simp only [driveIter, hf, Proactor.wake, hw wk, workerStep_eq]
      rw [hrec]
      have : w + 1 + N = w + (N + 1) := by omega
      rw [this]

/-- C8: for every computation that polls pending exactly `N` times and then
becomes ready with value `v` (no real I/O), every backend whose wakes succeed
and whose default-configuration construction succeeds, and every fuel of at
least `N + 1` foreground iterations, `drive` returns the computation's value
— so at most `N + 1` iterations are used — and the background worker (having
made `N` wait calls) is stopped before `drive` returns. -/
theorem drive_terminates (env : BackendEnv) {σ α : Type}
    (fut : σ → σ × Poll α) (c0 : σ) (N : Nat) (v : α) (fuel : Nat)
    (st : ProcState)
    (hw : ∀ k, env.wakeResult k = .ok ())
    (hcr : env.createOk NucleiConfig.default = true)
    (hpend : ∀ k < N, (fut (pollStates fut c0 k)).2 = .pending)
    (hready : (fut (pollStates fut c0 N)).2 = .ready v)
    (hfuel : N + 1 ≤ fuel) :
    (drive env fut c0 fuel st).1 =
      .ok (some (v, { waits := N, stopped := true })) := by
  obtain ⟨m, rfl⟩ : ∃ m, fuel = N + 1 + m := ⟨fuel - (N + 1), by omega⟩
  have key := driveLoop_ready_after env fut v hw N m c0 0 0 hpend hready
  cases hc : st.cell with
  | some p => simp [drive, Proactor.get, hc, initDrive, key]
  | none =>
    simp [drive, Proactor.get, hc, SysProactor.new, hcr, initDrive, key]

/-- Witness for C8 at a concrete input: a countdown computation that is
pending for its first three polls; `drive` with fuel 9 returns its value `7`,
the worker stopped after three waits. -/
theorem drive_terminates_witness :
    (drive envAllOk (countdown (7 : Nat)) 3 9 ProcState.empty).1 =
      .ok (some (7, { waits := 3, stopped := true })) :=
  drive_terminates envAllOk (countdown 7) 3 3 7 9 ProcState.empty
    (fun _ => rfl) rfl (by decide) (by decide) (by decide)

end Nuclei
